import Mathlib

/-!
Verification of the cablemap field-extraction engine.

Shallow embedding of `src/cablemap.core/cablemap/core/reader.py` (the
field-extraction engine of the cablemap repository).  Python text values are
modelled as `List Char`; the Python `re` module is modelled by a small
backtracking regular-expression interpreter whose patterns are transcribed
one-to-one from the pattern literals in the source.  Python's
string-or-`None` values are modelled as `Option (List Char)` and the
truthiness idioms (`m and m.start() or None` etc.) by explicit helpers.
-/

set_option maxRecDepth 8000
set_option linter.unusedVariables false
set_option linter.unreachableTactic false
set_option linter.unusedTactic false

namespace Cablemap

/-- Python text is a sequence of code points. -/
abbrev Str := List Char

/-- `s.toList` shorthand used to write text literals. -/
def tl (s : String) : Str := s.toList

/-- Python truthiness of a string: nonempty. -/
def pyTruthy (s : Str) : Bool := !s.isEmpty

/-- Python truthiness of a string-or-None value (`None` and `''` are falsy). -/
def optTruthy (o : Option Str) : Bool :=
  match o with
  | none => false
  | some s => pyTruthy s

/-- Python truthiness of an int-or-None value (`None` and `0` are falsy). -/
def natOptTruthy (o : Option Nat) : Bool :=
  match o with
  | none => false
  | some n => n ≠ 0

/-- The Python idiom `m and m.X() or d` for an int result: if the option is
present and its value nonzero, that value, otherwise `d`. -/
def pyAndOrN (o : Option Nat) (d : Nat) : Nat :=
  match o with
  | some n => if n ≠ 0 then n else d
  | none => d

/-- The Python idiom `m and m.X() or None`: keeps the value only when nonzero. -/
def pyAndOrNone (o : Option Nat) : Option Nat :=
  match o with
  | some n => if n ≠ 0 then some n else none
  | none => none

/-- ASCII lower-casing of one character (Python 2 `str.lower` behaviour). -/
def lowerC (c : Char) : Char :=
  if 'A' ≤ c ∧ c ≤ 'Z' then Char.ofNat (c.toNat + 32) else c

/-- ASCII upper-casing of one character (Python 2 `str.upper` behaviour). -/
def upperC (c : Char) : Char :=
  if 'a' ≤ c ∧ c ≤ 'z' then Char.ofNat (c.toNat - 32) else c

/-- Characters matched by the regex class `\s` (ASCII whitespace). -/
def isWsp (c : Char) : Bool :=
  c = ' ' ∨ c = '\t' ∨ c = '\n' ∨ c = '\r' ∨ c = '\x0b' ∨ c = '\x0c'

/-! ## Regular-expression abstract syntax

One constructor per construct appearing in the pattern literals of
`reader.py`.  Alternation is left-biased (Python tries alternatives in
textual order), repetition carries greedy/lazy polarity, groups carry their
Python group number. -/

/-- An item of a character class `[...]`. -/
inductive ClsIt where
  | one (c : Char)
  | rng (lo hi : Char)
  | wsp
  deriving Repr, DecidableEq

/-- Regular expressions (the subset used by `reader.py`). -/
inductive RE where
  | eps
  | one (c : Char)
  | cls (neg : Bool) (its : List ClsIt)
  | dot
  | cat (a b : RE)
  | alt (a b : RE)
  | rep (r : RE) (lo : Nat) (hi : Option Nat) (lazyq : Bool)
  | grp (n : Nat) (r : RE)
  | ahead (neg : Bool) (r : RE)
  | nobehind (c : Char)
  | bol
  | eol
  | endS
  deriving Repr, DecidableEq

/-- Compilation flags of a pattern (re.IGNORECASE, re.DOTALL, re.MULTILINE). -/
structure RFlags where
  ic : Bool := false
  dotall : Bool := false
  ml : Bool := false
  deriving Repr, DecidableEq

def ClsIt.hit0 (it : ClsIt) (c : Char) : Bool :=
  match it with
  | .one a => a = c
  | .rng lo hi => lo ≤ c ∧ c ≤ hi
  | .wsp => isWsp c

/-- Class-item matching, case-folding when IGNORECASE is set. -/
def ClsIt.hit (ic : Bool) (it : ClsIt) (c : Char) : Bool :=
  it.hit0 c || (ic && (it.hit0 (lowerC c) || it.hit0 (upperC c)))

/-- Character-class matching. -/
def clsMatch (ic neg : Bool) (its : List ClsIt) (c : Char) : Bool :=
  let b := its.any (fun it => it.hit ic c)
  if neg then !b else b

/-- Literal-character matching (case-insensitive when IGNORECASE). -/
def charEq (ic : Bool) (a c : Char) : Bool :=
  a = c || (ic && lowerC a = lowerC c)

/-- Group spans: `groups[i]` is the span of group `i+1`, if it matched. -/
abbrev GList := List (Option (Nat × Nat))

def setG (g : GList) (n : Nat) (sp : Nat × Nat) : GList := g.set (n - 1) (some sp)

/-- Number of capturing groups (the largest group index used). -/
def RE.maxGrp : RE → Nat
  | .eps | .one _ | .cls _ _ | .dot | .nobehind _ | .bol | .eol | .endS => 0
  | .cat a b | .alt a b => max a.maxGrp b.maxGrp
  | .rep r _ _ _ => r.maxGrp
  | .grp n r => max n r.maxGrp
  | .ahead _ r => r.maxGrp

/-- Size of the syntax tree, used to compute a fuel bound. -/
def RE.size : RE → Nat
  | .eps | .one _ | .cls _ _ | .dot | .nobehind _ | .bol | .eol | .endS => 1
  | .cat a b | .alt a b => a.size + b.size + 1
  | .rep r _ hi _ => r.size + 2 + (match hi with | some h => h | none => 0)
  | .grp _ r => r.size + 1
  | .ahead _ r => r.size + 1

/-- Backtracking matcher in continuation-passing style.

`reNext fl inp ep fuel re pos g k` attempts to match `re` at position `pos`
of `inp` (characters at positions `≥ ep` are invisible, modelling Python's
`endpos`), with current group spans `g`; on each way of matching it calls
the continuation `k` with the new position and groups, and backtracks while
`k` answers `none`.  `fuel` bounds the depth of one matching attempt; the
wrappers below always supply enough fuel for the patterns of `reader.py`. -/
def reNext (fl : RFlags) (inp : Str) (ep : Nat) :
    Nat → RE → Nat → GList → (Nat → GList → Option (Nat × GList)) → Option (Nat × GList)
  | 0, _, _, _, _ => none
  | Nat.succ fu, re, pos, g, k =>
    match re with
    | .eps => k pos g
    | .one c =>
      if pos < ep then
        match inp[pos]? with
        | some c2 => if charEq fl.ic c c2 then k (pos + 1) g else none
        | none => none
      else none
    | .cls neg its =>
      if pos < ep then
        match inp[pos]? with
        | some c2 => if clsMatch fl.ic neg its c2 then k (pos + 1) g else none
        | none => none
      else none
    | .dot =>
      if pos < ep then
        match inp[pos]? with
        | some c2 => if fl.dotall || c2 ≠ '\n' then k (pos + 1) g else none
        | none => none
      else none
    | .cat a b => reNext fl inp ep fu a pos g (fun p2 g2 => reNext fl inp ep fu b p2 g2 k)
    | .alt a b =>
      match reNext fl inp ep fu a pos g k with
      | some r => some r
      | none => reNext fl inp ep fu b pos g k
    | .rep r lo hi lz =>
      match lo with
      | Nat.succ lo2 =>
        reNext fl inp ep fu r pos g (fun p2 g2 =>
          reNext fl inp ep fu (.rep r lo2 (hi.map (· - 1)) lz) p2 g2 k)
      | 0 =>
        match hi with
        | some 0 => k pos g
        | _ =>
          let hi2 := hi.map (· - 1)
          if lz then
            match k pos g with
            | some r2 => some r2
            | none =>
              reNext fl inp ep fu r pos g (fun p2 g2 =>
                if pos < p2 then reNext fl inp ep fu (.rep r 0 hi2 lz) p2 g2 k else none)
          else
            match reNext fl inp ep fu r pos g (fun p2 g2 =>
                if pos < p2 then reNext fl inp ep fu (.rep r 0 hi2 lz) p2 g2 k else none) with
            | some r2 => some r2
            | none => k pos g
    | .grp n r => reNext fl inp ep fu r pos g (fun p2 g2 => k p2 (setG g2 n (pos, p2)))
    | .ahead neg r =>
      match reNext fl inp ep fu r pos g (fun p2 g2 => some (p2, g2)) with
      | some (_, g2) => if neg then none else k pos g2
      | none => if neg then k pos g else none
    | .nobehind c =>
      match pos with
      | 0 => k pos g
      | Nat.succ pp =>
        match inp[pp]? with
        | some c2 => if c2 = c then none else k pos g
        | none => k pos g
    | .bol =>
      if pos = 0 then k pos g
      else if fl.ml then
        match inp[pos - 1]? with
        | some c2 => if c2 = '\n' then k pos g else none
        | none => none
      else none
    | .eol =>
      if pos = ep then k pos g
      else if fl.ml then
        match inp[pos]? with
        | some c2 => if c2 = '\n' ∧ pos < ep then k pos g else none
        | none => none
      else
        if pos + 1 = ep ∧ inp[pos]? = some '\n' then k pos g else none
    | .endS => if pos = ep then k pos g else none

/-- Fuel bound: generous multiple of pattern size × input length. -/
def matchFuel (re : RE) (inp : Str) : Nat :=
  (re.size + 8) * (inp.length + 8) * 4 + 400

/-- A match result: start position, end position, group spans. -/
abbrev MRes := Nat × Nat × GList

/-- Anchored attempt at `pos` (Python `pattern.match(s, pos, endpos)`). -/
def reTryAt (fl : RFlags) (re : RE) (inp : Str) (pos ep : Nat) : Option MRes :=
  match reNext fl inp ep (matchFuel re inp) re pos
      (List.replicate re.maxGrp none) (fun p2 g2 => some (p2, g2)) with
  | some (e, g) => some (pos, e, g)
  | none => none

def reSearchAux (fl : RFlags) (re : RE) (inp : Str) (ep : Nat) :
    Nat → Nat → Option MRes
  | 0, _ => none
  | Nat.succ c, pos =>
    match reTryAt fl re inp pos ep with
    | some m => some m
    | none => reSearchAux fl re inp ep c (pos + 1)

/-- Python `pattern.search(s, pos, endpos)`: leftmost match. -/
def reSearchIn (fl : RFlags) (re : RE) (inp : Str) (pos ep0 : Nat) : Option MRes :=
  let ep := min ep0 inp.length
  if pos ≤ ep then reSearchAux fl re inp ep (ep + 1 - pos) pos else none

/-- Python `pattern.search(s, pos)`. -/
def reSearch (fl : RFlags) (re : RE) (inp : Str) (pos : Nat) : Option MRes :=
  reSearchIn fl re inp pos inp.length

/-- Python `pattern.match(s, pos, endpos)` (endpos-bounded, anchored). -/
def reMatchIn (fl : RFlags) (re : RE) (inp : Str) (pos ep0 : Nat) : Option MRes :=
  let ep := min ep0 inp.length
  if pos ≤ ep then reTryAt fl re inp pos ep else none

/-- Python `pattern.match(s, pos)`. -/
def reMatch (fl : RFlags) (re : RE) (inp : Str) (pos : Nat) : Option MRes :=
  reMatchIn fl re inp pos inp.length

def reFindAllAux (fl : RFlags) (re : RE) (inp : Str) (ep : Nat) :
    Nat → Nat → List MRes
  | 0, _ => []
  | Nat.succ c, pos =>
    match reSearchIn fl re inp pos ep with
    | none => []
    | some (s, e, g) =>
      (s, e, g) :: reFindAllAux fl re inp ep c (if e = s then e + 1 else e)

/-- Python `pattern.findall(s, pos, endpos)`: all non-overlapping matches. -/
def reFindAllIn (fl : RFlags) (re : RE) (inp : Str) (pos ep0 : Nat) : List MRes :=
  reFindAllAux fl re inp (min ep0 inp.length) (inp.length + 1 - pos) pos

def reFindAll (fl : RFlags) (re : RE) (inp : Str) : List MRes :=
  reFindAllIn fl re inp 0 inp.length

/-- `s[a:b]` Python slice. -/
def pyslice (s : Str) (a b : Nat) : Str := (s.take b).drop a

/-- The text of group `n` of a match, `none` when the group did not match. -/
def grpStr (inp : Str) (m : MRes) (n : Nat) : Option Str :=
  match m.2.2[n - 1]? with
  | some (some (s, e)) => some (pyslice inp s e)
  | _ => none

/-- Group text with Python `findall` behaviour: unmatched groups yield `''`. -/
def grpD (inp : Str) (m : MRes) (n : Nat) : Str := (grpStr inp m n).getD []

/-- Start offset of group `n` (defined when the group matched). -/
def grpStart (m : MRes) (n : Nat) : Nat :=
  match m.2.2[n - 1]? with
  | some (some (s, _)) => s
  | _ => 0

def reSubAux (fl : RFlags) (re : RE) (repl : Str → MRes → Str) (inp : Str) :
    Nat → Nat → Str
  | 0, pos => pyslice inp pos inp.length
  | Nat.succ c, pos =>
    match reSearch fl re inp pos with
    | none => pyslice inp pos inp.length
    | some (s, e, g) =>
      if e = s then
        pyslice inp pos s ++ repl inp (s, e, g) ++ pyslice inp s (s + 1) ++
          reSubAux fl re repl inp c (s + 1)
      else
        pyslice inp pos s ++ repl inp (s, e, g) ++ reSubAux fl re repl inp c e

/-- Python `pattern.sub(repl, s)` with a replacement function. -/
def reSubF (fl : RFlags) (re : RE) (repl : Str → MRes → Str) (inp : Str) : Str :=
  reSubAux fl re repl inp (inp.length + 1) 0

/-- Python `pattern.sub(repl, s)` with a literal replacement. -/
def reSub (fl : RFlags) (re : RE) (repl : Str) (inp : Str) : Str :=
  reSubF fl re (fun _ _ => repl) inp

/-! ## Pattern construction helpers -/

/-- Literal text as a regex. -/
def rstr (s : String) : RE := (s.toList.map RE.one).foldr RE.cat RE.eps

/-- Sequencing of a list of regexes (in order). -/
def rcat (l : List RE) : RE := l.foldr RE.cat RE.eps

/-- Alternation over a list (Python tries alternatives left to right). -/
def ralt (l : List RE) : RE :=
  match l with
  | [] => RE.eps
  | h :: t => t.foldl RE.alt h

def star (r : RE) : RE := RE.rep r 0 none false
def starL (r : RE) : RE := RE.rep r 0 none true
def plus (r : RE) : RE := RE.rep r 1 none false
def plusL (r : RE) : RE := RE.rep r 1 none true
def ropt (r : RE) : RE := RE.rep r 0 (some 1) false

/-- `[A-Z]` -/
def clsAZ : List ClsIt := [.rng 'A' 'Z']
/-- `[0-9]` -/
def clsD : List ClsIt := [.rng '0' '9']
/-- `\s` as a single-character regex. -/
def rwsp : RE := RE.cls false [.wsp]
/-- `\s*` -/
def swsp : RE := star rwsp
/-- `\s+` -/
def pwsp : RE := plus rwsp

/-! ## Python string helpers -/

/-- Does `s` start with `pre`? -/
def startsL (s pre : Str) : Bool := s.take pre.length = pre

def pyReplaceAux (old new : Str) : Nat → Str → Str
  | 0, s => s
  | Nat.succ fu, s =>
    match s with
    | [] => []
    | c :: t =>
      if startsL (c :: t) old then new ++ pyReplaceAux old new fu (List.drop old.length (c :: t))
      else c :: pyReplaceAux old new fu t

/-- Python `s.replace(old, new)` (all non-overlapping occurrences, left to
right); `old` is never empty in `reader.py`. -/
def pyReplace (s old new : Str) : Str :=
  if old.isEmpty then s else pyReplaceAux old new s.length s

/-- Python `s.strip()`. -/
def pyStrip (s : Str) : Str :=
  ((s.dropWhile isWsp).reverse.dropWhile isWsp).reverse

/-- Python `s.upper()` (ASCII). -/
def pyUpper (s : Str) : Str := s.map upperC

/-- Python `s.endswith(suf)`. -/
def endsL (s suf : Str) : Bool :=
  if suf.length ≤ s.length then s.drop (s.length - suf.length) = suf else false

/-- Last position `i` with `lo ≤ i` and `i + sub.length ≤ hi` where `sub`
occurs in `s` (Python `s.rfind(sub, lo, hi)` returning `none` for `-1`). -/
def pyRFind (s sub : Str) (lo hi : Nat) : Option Nat :=
  let hi2 := min hi s.length
  (List.range (hi2 + 1)).foldl
    (fun acc i =>
      if lo ≤ i ∧ i + sub.length ≤ hi2 ∧ startsL (s.drop i) sub then some i else acc)
    none

/-- Python `int(...)` on a digit string. -/
def natFromDigits (ds : Str) : Nat :=
  ds.foldl (fun a c => a * 10 + (c.toNat - 48)) 0

/-- Decimal rendering of a natural number (`'%d' % n`). -/
def natToStr (n : Nat) : Str := (Nat.repr n).toList

/-- Python `s.split()` (split on whitespace runs, no empty items). -/
def pySplitWs : Str → List Str
  | [] => []
  | c :: t =>
    if isWsp c then pySplitWs t
    else
      match pySplitWs t with
      | [] => [[c]]
      | w :: ws =>
        match t with
        | [] => [[c]]
        | c2 :: _ => if isWsp c2 then [c] :: w :: ws else (c :: w) :: ws

/-! ## Patterns of the header/body segmenter (reader.py lines 241-243, 751) -/

/-- Line 241: `_CLASSIFIED_BY_PATTERN = re.compile(r'Classified[ ]+by[^\n]+', re.IGNORECASE)`. -/
def classifiedByRE : RE :=
  rcat [rstr "Classified", plus (RE.cls false [.one ' ']), rstr "by",
        plus (RE.cls true [.one '\n'])]

def classifiedByFl : RFlags := { ic := true }

/-- Line 242: `_FIRST_PARAGRAPH_PATTERN = re.compile(r'\n1. ')` — note that the
`.` is the any-character metacharacter, not a literal dot. -/
def firstParagraphRE : RE := rcat [RE.one '\n', RE.one '1', RE.dot, RE.one ' ']

def firstParagraphFl : RFlags := {}

/-- Line 243 (shadowed by the line-751 assignment to the same module-level
name): `_SUMMARY_PATTERN = re.compile(r'(BEGIN SUMMARY )|(SUMMARY: )')`. -/
def summaryRE243 : RE :=
  RE.alt (RE.grp 1 (rstr "BEGIN SUMMARY ")) (RE.grp 2 (rstr "SUMMARY: "))

def summaryFl243 : RFlags := {}

/-- Line 751, the `_SUMMARY_PATTERN` in effect when any function of the module
is called:
`re.compile(r'(?:SUMMARY[ \-\n]*)(?::|\.|\s)(.+?)(?=(\n[ ]*\n)|(END[ ]+SUMMARY)|(----+))', re.DOTALL|re.IGNORECASE|re.UNICODE)`. -/
def summaryRE751 : RE :=
  rcat [rstr "SUMMARY", star (RE.cls false [.one ' ', .one '-', .one '\n']),
        ralt [RE.one ':', RE.one '.', rwsp],
        RE.grp 1 (plusL RE.dot),
        RE.ahead false (ralt
          [RE.grp 2 (rcat [RE.one '\n', star (RE.cls false [.one ' ']), RE.one '\n']),
           RE.grp 3 (rcat [rstr "END", plus (RE.cls false [.one ' ']), rstr "SUMMARY"]),
           RE.grp 4 (rcat [rstr "---", plus (RE.one '-')])])]

def summaryFl751 : RFlags := { ic := true, dotall := true }

/-- The arithmetic of the cut index (lines 268-278) as a function of the
three search results' offsets: the classified-by match end, the summary match
start and the first-paragraph match start (each `none` when the pattern did
not match).  The Python `m and m.end() or 0` / `m and m.start() or None`
truthiness idioms are kept (`pyAndOrN` / `pyAndOrNone`). -/
def hbIdxOf (endCb startSum startPara : Option Nat) : Nat :=
  let idx1 : Nat := pyAndOrN endCb 0
  let summaryIdx := pyAndOrNone startSum
  let paraIdx := pyAndOrNone startPara
  if natOptTruthy summaryIdx && natOptTruthy paraIdx then
    max idx1 (min (summaryIdx.getD 0) (paraIdx.getD 0))
  else if natOptTruthy summaryIdx then max (summaryIdx.getD 0) idx1
  else if natOptTruthy paraIdx then max (paraIdx.getD 0) idx1
  else idx1

/-- The cut index computed by `header_body_from_content` (lines 267-278); at
call time the module-level name `_SUMMARY_PATTERN` denotes the line-751
pattern. -/
def headerBodyIdx (content : Str) : Nat :=
  hbIdxOf ((reSearch classifiedByFl classifiedByRE content 0).map (fun m => m.2.1))
          ((reSearch summaryFl751 summaryRE751 content 0).map (fun m => m.1))
          ((reSearch firstParagraphFl firstParagraphRE content 0).map (fun m => m.1))

/-- `header_body_from_content` (reader.py lines 245-281).  Returns
`some (header, msg)` for Python's `(header, msg)` and `none` for
`(None, None)` (lines 279-281: split at the cut index when positive). -/
def header_body_from_content (content : Str) : Option (Str × Str) :=
  if 0 < headerBodyIdx content then
    some (content.take (headerBodyIdx content), content.drop (headerBodyIdx content))
  else none

/-- The variant of `header_body_from_content` that would result if the
line-243 `_SUMMARY_PATTERN` definition were still in effect at call time
(it is not: line 751 rebinds the name).  Used to settle the shadowing claim. -/
def header_body_line243_variant (content : Str) : Option (Str × Str) :=
  let m1 := reSearch classifiedByFl classifiedByRE content 0
  let idx1 : Nat := pyAndOrN (m1.map (fun m => m.2.1)) 0
  let m2 := reSearch summaryFl243 summaryRE243 content 0
  let summaryIdx := pyAndOrNone (m2.map (fun m => m.1))
  let m3 := reSearch firstParagraphFl firstParagraphRE content 0
  let paraIdx := pyAndOrNone (m3.map (fun m => m.1))
  let idx :=
    if natOptTruthy summaryIdx && natOptTruthy paraIdx then
      max idx1 (min (summaryIdx.getD 0) (paraIdx.getD 0))
    else if natOptTruthy summaryIdx then max (summaryIdx.getD 0) idx1
    else if natOptTruthy paraIdx then max (paraIdx.getD 0) idx1
    else idx1
  if 0 < idx then some (content.take idx, content.drop idx) else none

/-! ## `_CABLE_FIXES` and `fix_content` (reader.py lines 75-134, 165-190) -/

/-- The `_CABLE_FIXES` table (lines 75-134): per-identifier
(pattern, replacement) substitution rules, transcribed entry by entry. -/
def cableFixes : List (Str × (RE × Str)) :=
  [ (tl "08MANAMA492", (rstr "TORUEHC/SECSTATE", tl "TO RUEHC/SECSTATE")),
    (tl "08ECTION01OF02MANAMA492", (rstr "TORUEHC/SECSTATE", tl "TO RUEHC/SECSTATE")),
    (tl "08TRIPOLI402",
      (rcat [rstr "JAMAHIRIYA-STYLE", pwsp, rstr "Q: A) TRIPOLI"],
       tl "JAMAHIRIYA-STYLE \nREF: A) TRIPOLI")),
    (tl "07HAVANA252", (rstr "XXXNEED A MILLION", tl "XXX NEED A MILLION")),
    (tl "09BEIJING1176", (rstr "XXXDISCUSSES", tl "XXX DISCUSSES")),
    (tl "09BEIJING2438",
      (rcat [rstr "NEGOTIATE SE", pwsp, rstr "CRETLY"], tl "NEGOTIATE SECRETLY")),
    (tl "09STATE30049",
      (rstr "Secretary Clinton’s March 24, 2009 \n\n",
       tl "Secretary Clinton’s March 24, 2009 \n")),
    (tl "09CAIRO544", (rstr "\nBLOGGERS MOVING", tl "\nSUBJECT: BLOGGERS MOVING")),
    (tl "09CAIRO211", (rstr "EG\nEGYPT\x27S 54", tl "EG\nSUBJECT: EGYPT\x27S 54")),
    (tl "09CAIRO1468", (rstr "EG\nXXXXXXXXXXXX:", tl "EG\nSUBJECT: XXXXXXXXXXXX:")),
    (tl "09BAKU687",
      (rstr "IR\nClassified By:",
       tl "IR\nSUBJECT: IRAN: NINJA BLACK BELT MASTER DETAILS USE OF\nMARTIAL ARTS CLUBS FOR REPRESSION; xxxxxxxxxxxx\n\nREF: a) BAKU 575\n\nClassified By:")),
    (tl "08KYIV2414",
      (rcat [rstr "UP", star (RE.cls false [.one ' ']), RE.one '\n', RE.one '1', RE.dot],
       tl "UP\nSUBJECT: UKRAINE: FIRTASH MAKES HIS CASE TO THE USG\nREF: A. KYIV 2383 B. KYIV 2294\n\n1.\n")),
    (tl "09CAIRO79",
      (rstr "EG\n\nClassified",
       tl "\nSUBJECT: GOE STRUGGLING TO ADDRESS POLICE BRUTALITY\n\nREF: A. 08 CAIRO 2431\nB. 08 CAIRO 2430\nC. 08 CAIRO 2260\nD. 08 CAIRO 783\nE. 07 CAIRO 3214\nF. 07 CAIRO 2845\n")),
    (tl "06SAOPAULO348",
      (rstr "BR\n(B) Sao Paulo 215;", tl "BR\nREF: (B) Sao Paulo 215;")),
    (tl "09TRIPOLI63",
      (rstr "LY\n\nCLASSIFIED BY:",
       tl "LY\n\nSUBJECT: RISKY BUSINESS? AMERICAN CONSTRUCTION FIRM ENTERS JOINT VENTURE WITH GOL [8466936]\n\nCLASSIFIED BY:")) ]

/-- `fix_content` (reader.py lines 165-190): apply the identifier's
substitution rule, if any; otherwise return the content unchanged. -/
def fix_content (content reference_id : Str) : Str :=
  match cableFixes.lookup reference_id with
  | some (pat, repl) => reSub {} pat repl content
  | none => content

/-! ## Metadata table parser (reader.py lines 284-316) -/

/-- One `<td>...<a ...>(field)</a>` cell of `_META_PATTERN`, preceded by the
separator regex `sep` (`.+?` for the first cell, `.+` for the others). -/
def metaCell (sep : RE) (n : Nat) : RE :=
  rcat [sep, rstr "<td>", swsp, rstr "<a", plusL RE.dot, RE.one '>',
        RE.grp n (plusL RE.dot), rstr "</a>"]

/-- Line 284: `_META_PATTERN` (re.MULTILINE|re.DOTALL):
`<table\s+class\s*=\s*(?:"|')cable(?:"|')\s*>.+?<td>\s*<a.+?>(.+?)</a>` then
four repetitions of `.+<td>\s*<a.+?>(.+?)</a>`. -/
def metaRE : RE :=
  rcat [rstr "<table", pwsp, rstr "class", swsp, RE.one '=', swsp,
        ralt [RE.one '"', RE.one '\x27'], rstr "cable", ralt [RE.one '"', RE.one '\x27'],
        swsp, RE.one '>',
        metaCell (plusL RE.dot) 1, metaCell (plus RE.dot) 2, metaCell (plus RE.dot) 3,
        metaCell (plus RE.dot) 4, metaCell (plus RE.dot) 5]

def metaFl : RFlags := { dotall := true, ml := true }

/-- Line 285: `_MEDIA_URLS_PATTERN = re.compile(r'''<a href=(?:"|')([^"']+)''')`. -/
def mediaRE : RE :=
  rcat [rstr "<a href=", ralt [RE.one '"', RE.one '\x27'],
        RE.grp 1 (plus (RE.cls true [.one '"', .one '\x27']))]

def mediaFl : RFlags := {}

/-- The cable record (fields assigned by `parse_meta`; cf. `models.py`,
`Cable.__init__`). -/
structure Cable where
  reference_id : Str
  origin : Option Str := none
  created : Option Str := none
  released : Option Str := none
  classification : Option Str := none
  media_uris : List Str := []
  deriving Repr, DecidableEq

/-- Lines 293-297 of `parse_meta`: `rindex` of the closing table marker, then
`rindex` of the opening marker before it, then `_META_PATTERN.search` between
them.  `str.rindex` raises `ValueError` when the substring is absent, and an
unmatched pattern raises `ValueError('Cable table not found')`. -/
def metaTableMatch (file_content : Str) : Except Str (MRes × Nat × Nat) :=
  match pyRFind file_content (tl "</table>") 0 file_content.length with
  | none => .error (tl "substring not found")
  | some end_idx =>
    match pyRFind file_content (tl "<table class=\x27cable\x27>") 0 end_idx with
    | none => .error (tl "substring not found")
    | some start_idx =>
      match reSearchIn metaFl metaRE file_content start_idx end_idx with
      | none => .error (tl "Cable table not found")
      | some m => .ok (m, start_idx, end_idx)

/-- The reference identifier parsed from the metadata table (first group). -/
def metaParsedRef (file_content : Str) : Option Str :=
  match metaTableMatch file_content with
  | .ok (m, _, _) => some (grpD file_content m 1)
  | .error _ => none

/-- Lines 307-316 of `parse_meta`: the field assignments performed once the
identifier check has passed (created, released, origin, upper-cased
classification, and the media URIs harvested after the
`Appears in these` anchor when it is found at a positive offset). -/
def parseMetaAssign (file_content : Str) (m : MRes) (start_idx end_idx : Nat)
    (cable : Cable) : Except Str Cable :=
  let created := grpD file_content m 2
  let released := grpD file_content m 3
  let classification := grpD file_content m 4
  let origin := grpD file_content m 5
  let cable := { cable with created := some created, released := some released,
                            origin := some origin,
                            classification := some (pyUpper classification) }
  match pyRFind file_content (tl "Appears in these") start_idx end_idx with
  | some s2 =>
    if 0 < s2 then
      let media := (reFindAllIn mediaFl mediaRE file_content s2 end_idx).map
        (fun mm => grpD file_content mm 1)
      .ok { cable with media_uris := media }
    else .ok cable
  | none => .ok cable

/-- `parse_meta` (lines 287-316).  `malformedIds` models the
`MALFORMED_CABLE_IDS` exception table of `cablemap.core.constants` (that
module is not under src/; per the spec it maps malformed identifiers to their
corrected form).  A Python exception is modelled as `Except.error`; on
success the updated cable is returned. -/
def parse_meta (malformedIds : Str → Option Str) (file_content : Str) (cable : Cable) :
    Except Str Cable :=
  match metaTableMatch file_content with
  | .error e => .error e
  | .ok (m, start_idx, end_idx) =>
    if cable.reference_id ≠ grpD file_content m 1 then
      if malformedIds (grpD file_content m 1) ≠ some cable.reference_id then
        .error (tl "cable.reference_id != ref")
      else parseMetaAssign file_content m start_idx end_idx cable
    else parseMetaAssign file_content m start_idx end_idx cable

/-! ## Recipients (reader.py lines 423-469) -/

/-- Line 444: `_REC_PATTERN = re.compile(r'([A-Z]+/)?([A-Z -]{2,})(?:.*$)',
re.MULTILINE|re.UNICODE)`. -/
def recRE : RE :=
  rcat [ropt (RE.grp 1 (rcat [plus (RE.cls false clsAZ), RE.one '/'])),
        RE.grp 2 (RE.rep (RE.cls false [.rng 'A' 'Z', .one ' ', .one '-']) 2 none false),
        star RE.dot, RE.eol]

def recFl : RFlags := { ml := true }

/-- `_route_for_name` (lines 423-441).  Modelled from the spec: the
`NAME2ROUTE` table is built once from the external data file `routes.txt`
(not under src/) updated with `_ADDITIONAL_ROUTES`; per the spec's design
note it is passed here as an explicit immutable lookup.  The
"WASHDC" → "WASHINGTON DC" retry of the source is kept. -/
def route_for_name (name2route : Str → Option Str) (name : Str) : Option Str :=
  let res := name2route name
  if !optTruthy res && endsL name (tl "WASHDC") then
    name2route (pyReplace name (tl "WASHDC") (tl "WASHINGTON DC"))
  else res

/-- One iteration of the `_route_recipient_from_header` loop (lines 448-468):
strip precedence keywords, apply the `09BAKU179` fix, strip whitespace, drop
noise tokens (to `None`), resolve a missing route via the route table, and
keep the pair when route or recipient is truthy. -/
def recPair (name2route : Str → Option Str) (header reference_id : Str)
    (m : MRes) : Option Str × Option Str :=
  let route0 := grpD header m 1
  let recipient0 := grpD header m 2
  let route1 := if pyTruthy route0 then pyReplace route0 (tl "/") [] else route0
  let route2 : Option Str := if route1 = tl "RHMFISS" then none else some route1
  let recipient1 :=
    [tl "PRIORITY", tl "IMMEDIATE", tl "NIACT"].foldl
      (fun r x => pyReplace r x []) recipient0
  let recipient2 :=
    if reference_id = tl "09BAKU179" then pyReplace recipient1 (tl "PIORITY") []
    else recipient1
  let recipient3 := pyStrip recipient2
  let recipient4 : Option Str :=
    if recipient3 = tl "PAGE" ∨ recipient3 = tl "RHMFISS" ∨ recipient3 = tl "RHMFIUU"
    then none
    else some recipient3
  let route3 :=
    if !optTruthy route2 && optTruthy recipient4 then
      route_for_name name2route recipient3
    else route2
  (route3, recipient4)

/-- Line 467-468: `if route or recipient: res.append((route, recipient))`. -/
def recStep (name2route : Str → Option Str) (header reference_id : Str)
    (res : List (Option Str × Option Str)) (m : MRes) : List (Option Str × Option Str) :=
  let p := recPair name2route header reference_id m
  if optTruthy p.1 || optTruthy p.2 then res ++ [p] else res

/-- `_route_recipient_from_header` (lines 446-469): fold `recStep` over the
`_REC_PATTERN.findall` matches of the header. -/
def route_recipient_from_header (name2route : Str → Option Str)
    (header reference_id : Str) : List (Option Str × Option Str) :=
  (reFindAll recFl recRE header).foldl (recStep name2route header reference_id) []

/-! ## Subject extractor (reader.py lines 530-586) -/

def _MAX_HEADER_IDX : Nat := 1200

/-- `[A-Za-z_-]` (word-ish class used by the tag patterns). -/
def wordCls : RE := RE.cls false [.rng 'A' 'Z', .rng 'a' 'z', .one '_', .one '-']

/-- Line 531: `_SUBJECT_MAX_PATTERN = re.compile(r'1\.?[ ]*\([^\)]+\)')`. -/
def subjMaxRE : RE :=
  rcat [RE.one '1', ropt (RE.one '.'), star (RE.one ' '), RE.one '(',
        plus (RE.cls true [.one ')']), RE.one ')']

def subjMaxFl : RFlags := {}

/-- Line 530: `_SUBJECT_PATTERN` (re.DOTALL|re.IGNORECASE|re.UNICODE), the
subject anchor with its ordered terminator alternation, transcribed
alternative by alternative. -/
def subjectRE : RE :=
  rcat [RE.nobehind '(',
        ropt (RE.one 'S'), rstr "UBJ", ropt (rstr "ECT"),
        ralt [rcat [RE.one ':', swsp], rcat [ropt (RE.one ':'), pwsp]],
        RE.ahead true (rcat [rstr "LINE", star (RE.one '/')]),
        RE.grp 1 (plusL RE.dot),
        ralt [
          RE.endS,
          RE.grp 2 (rstr "C O N"),
          RE.grp 3 (rcat [rstr "SENS", ropt (RE.one 'I'), rstr "TIVE BUT"]),
          RE.grp 4 (rcat [plus (RE.one ' '), rstr "REF", ropt (RE.one 'S'), RE.one ':',
                          plus (RE.one ' ')]),
          RE.grp 5 (RE.alt
            (rcat [RE.one '\n', star (RE.one ' '), RE.one '\n'])
            (rcat [swsp, RE.one '\n', swsp, swsp, rstr "REF", ropt (RE.one 'S'),
                   ropt (RE.one ':'), rwsp])),
          RE.grp 6 (rcat [rstr "REF:", rwsp]),
          RE.grp 7 (rcat [rstr "REF(S)", ropt (RE.one ':')]),
          RE.grp 8 (rcat [swsp, rstr "Classified", rwsp]),
          RE.grp 9 (rcat [RE.cls false [.rng '1' '9'], ropt (RE.one '.'),
                          plus (RE.one ' '), rstr "Classified By"]),
          RE.grp 10 (rcat [RE.cls false [.rng '1' '9'], ropt (RE.one '.'),
                           star (RE.one ' '), RE.one '(', plus (RE.cls true [.one ')']),
                           RE.one ')']),
          RE.grp 11 (rcat [RE.one '1', ropt (RE.one '.'), RE.one ' ', rstr "Summary"]),
          RE.grp 12 (rcat [plus (RE.cls false clsAZ), pwsp, plus (RE.cls false clsD),
                           pwsp, plus (RE.cls false clsD), ropt (RE.one '.'),
                           star (RE.cls false clsD), pwsp, rstr "OF"]),
          RE.grp 13 (rcat [rstr "----", star (RE.one '-'), pwsp]),
          RE.grp 14 (rstr "Friday"),
          RE.grp 15 (rcat [rstr "PAGE ", plus (RE.cls false clsD)]),
          RE.grp 16 (rcat [rstr "This is ", ropt (RE.one 'a'), rstr "n Action Req"])]]

def subjectFl : RFlags := { ic := true, dotall := true }

/-- Line 532: `_NL_PATTERN = re.compile(ur'[\r\n]+', re.UNICODE|re.MULTILINE)`. -/
def nlRE : RE := plus (RE.cls false [.one '\r', .one '\n'])

def nlFl : RFlags := { ml := true }

/-- Line 533: `_WS_PATTERN = re.compile(ur'[ ]{2,}', re.UNICODE)`. -/
def wsRE : RE := RE.rep (RE.cls false [.one ' ']) 2 none false

def wsFl : RFlags := {}

/-- Line 534: `_BRACES_PATTERN = re.compile(r'^\([^\)]+\)[ ]+| \([A-Z]+\)$')`. -/
def bracesRE : RE :=
  RE.alt
    (rcat [RE.bol, RE.one '(', plus (RE.cls true [.one ')']), RE.one ')', plus (RE.one ' ')])
    (rcat [RE.one ' ', RE.one '(', plus (RE.cls false clsAZ), RE.one ')', RE.eol])

def bracesFl : RFlags := {}

/-- Line 535: `_HTML_ENTITIES_PATTERN = re.compile(r'&#([0-9]+);')`. -/
def entRE : RE := rcat [rstr "&#", RE.grp 1 (plus (RE.cls false clsD)), RE.one ';']

def entFl : RFlags := {}

/-- Lines 569-571 of `parse_subject`: the search boundary from
`_SUBJECT_MAX_PATTERN` (with the `m and m.start() or _MAX_HEADER_IDX`
truthiness idiom) and the `_SUBJECT_PATTERN` search below it. -/
def subjectSearch (content : Str) : Option MRes :=
  reSearchIn subjectFl subjectRE content 0
    (pyAndOrN ((reSearch subjMaxFl subjMaxRE content 0).map (fun m => m.1)) _MAX_HEADER_IDX)

/-- `parse_subject` (lines 537-586).  `subjectFixes` models the
`_CABLE_SUBJECT_FIXES` table, which the source builds from the data file
`subjects.txt` (not under src/); per the spec it maps identifiers of
documents whose subject is known from third-party releases to that subject.
Defaults of the Python signature: `reference_id=None, clean=True,
fix_subject=True`. -/
def parse_subject (subjectFixes : Str → Option Str) (content : Str)
    (reference_id : Option Str) (clean fix_subject : Bool) : Str :=
  match subjectSearch content with
  | none =>
    if !fix_subject then []
    else
      let subject := ((reference_id.bind subjectFixes).getD [])
      if pyTruthy subject && clean then reSub bracesFl bracesRE [] subject else subject
  | some m =>
    let res := pyStrip (grpD content m 1)
    let res := reSub nlFl nlRE (tl " ") res
    let res := reSub wsFl wsRE (tl " ") res
    let res := reSubF entFl entRE
      (fun inp mm => [Char.ofNat (natFromDigits (grpD inp mm 1))]) res
    if clean then reSub bracesFl bracesRE [] res else res

/-! ## Non-disclosure deadline (reader.py lines 590-613) -/

/-- Line 590: `_DEADLINE_PATTERN` (re.IGNORECASE|re.UNICODE):
`(?:E.?O.?\s*12958:?\s*DECL\s*:?\s*)([0-9]{1,2}/[0-9]{1,2}/[0-9]{2,4})|([0-9]{4}/[0-9]{2}/[0-9]{2})`
(the `.` after `E` and `O` are any-character metacharacters). -/
def deadlineRE : RE :=
  RE.alt
    (rcat [RE.one 'E', ropt RE.dot, RE.one 'O', ropt RE.dot, swsp, rstr "12958",
           ropt (RE.one ':'), swsp, rstr "DECL", swsp, ropt (RE.one ':'), swsp,
           RE.grp 1 (rcat [RE.rep (RE.cls false clsD) 1 (some 2) false, RE.one '/',
                           RE.rep (RE.cls false clsD) 1 (some 2) false, RE.one '/',
                           RE.rep (RE.cls false clsD) 2 (some 4) false])])
    (RE.grp 2 (rcat [RE.rep (RE.cls false clsD) 4 (some 4) false, RE.one '/',
                     RE.rep (RE.cls false clsD) 2 (some 2) false, RE.one '/',
                     RE.rep (RE.cls false clsD) 2 (some 2) false]))

def deadlineFl : RFlags := { ic := true }

/-- Python `s.split(c)` on a single separating character. -/
def pySplitChar (s : Str) (c : Char) : List Str :=
  s.foldr
    (fun x acc =>
      match acc with
      | [] => if x = c then [[], []] else [[x]]
      | w :: ws => if x = c then [] :: w :: ws else (x :: w) :: ws)
    [[]]

/-- `parse_nondisclosure_deadline` (lines 592-613): `None` when the pattern is
absent; otherwise the date normalized to `YYYY-MM-DD` (2-digit years become
`2000 + yy`, month/day are zero-padded). -/
def parse_nondisclosure_deadline (content : Str) : Option Str :=
  match reSearch deadlineFl deadlineRE content 0 with
  | none => none
  | some m =>
    let p1 := (grpStr content m 1).getD []
    let p2 := (grpStr content m 2).getD []
    if pyTruthy p1 then
      match pySplitChar p1 '/' with
      | [month, day, year] =>
        let year := if year.length ≠ 4 then natToStr (2000 + natFromDigits year) else year
        let month := if month.length ≠ 2 then '0' :: month else month
        let day := if day.length ≠ 2 then '0' :: day else day
        some (year ++ '-' :: month ++ '-' :: day)
      | _ => none
    else
      match pySplitChar p2 '/' with
      | [year, month, day] => some (year ++ '-' :: month ++ '-' :: day)
      | _ => none

/-! ## References extractor (reader.py lines 616-679) -/

/-- Line 616: `_REF_START_PATTERN` (re.IGNORECASE|re.UNICODE):
`(?:[\nPROGRAM ]*REF|REF\(S\):?\s*)([^\n]+(\n\s*[0-9]+[,\s]+[^\n]+)?)`. -/
def refStartRE : RE :=
  rcat [ralt [rcat [star (RE.cls false [.one '\n', .one 'P', .one 'R', .one 'O',
                                        .one 'G', .one 'R', .one 'A', .one 'M', .one ' ']),
                    rstr "REF"],
              rcat [rstr "REF(S)", ropt (RE.one ':'), swsp]],
        RE.grp 1 (rcat [plus (RE.cls true [.one '\n']),
          ropt (RE.grp 2 (rcat [RE.one '\n', swsp, plus (RE.cls false clsD),
                                plus (RE.cls false [.one ',', .wsp]),
                                plus (RE.cls true [.one '\n'])]))])]

def refStartFl : RFlags := { ic := true }

/-- Line 617: `_REF_LAST_REF_PATTERN` (re.IGNORECASE|re.UNICODE):
`(\n?[ ]*[A-Z](?:\.(?!O\.|S\.)|\))[^\n]+)`. -/
def refLastRE : RE :=
  RE.grp 1 (rcat [ropt (RE.one '\n'), star (RE.one ' '), RE.cls false clsAZ,
    RE.alt (rcat [RE.one '.', RE.ahead true (RE.alt (rstr "O.") (rstr "S."))]) (RE.one ')'),
    plus (RE.cls true [.one '\n'])])

def refLastFl : RFlags := { ic := true }

/-- Line 618: `_REF_PATTERN` (re.MULTILINE|re.UNICODE|re.IGNORECASE):
`(?:[A-Z](?:\.|\))\s*)?([0-9]{2,4})?(?:\s*)([A-Z ]*[A-Z ]*[A-Z]{2,})(?:\s+)([0-9]+)`. -/
def refRE : RE :=
  rcat [ropt (rcat [RE.cls false clsAZ, RE.alt (RE.one '.') (RE.one ')'), swsp]),
        ropt (RE.grp 1 (RE.rep (RE.cls false clsD) 2 (some 4) false)),
        swsp,
        RE.grp 2 (rcat [star (RE.cls false [.rng 'A' 'Z', .one ' ']),
                        star (RE.cls false [.rng 'A' 'Z', .one ' ']),
                        RE.rep (RE.cls false clsAZ) 2 none false]),
        pwsp,
        RE.grp 3 (plus (RE.cls false clsD))]

def refFl : RFlags := { ic := true, ml := true }

/-- Line 619: `_REF_NOT_REF_PATTERN` (re.IGNORECASE|re.UNICODE):
`\n[0-9]\.[ ]*(?:\([A-Z]+\))?`. -/
def refNotRefRE : RE :=
  rcat [RE.one '\n', RE.cls false clsD, RE.one '.', star (RE.one ' '),
        ropt (rcat [RE.one '(', plus (RE.cls false clsAZ), RE.one ')'])]

def refNotRefFl : RFlags := { ic := true }

/-- Line 620: `_REF_STOP_PATTERN = re.compile('classified by', re.IGNORECASE|re.UNICODE)`. -/
def refStopRE : RE := rstr "classified by"

def refStopFl : RFlags := { ic := true }

/-- Line 622: `_CLEAN_REFS_PATTERN` (re.UNICODE):
`PAGE [0-9]+ [A-Z]+ [0-9]+ [0-9]+ OF [0-9]+ [A-Z0-9]+`. -/
def cleanRefsRE : RE :=
  rcat [rstr "PAGE ", plus (RE.cls false clsD), RE.one ' ', plus (RE.cls false clsAZ),
        RE.one ' ', plus (RE.cls false clsD), RE.one ' ', plus (RE.cls false clsD),
        rstr " OF ", plus (RE.cls false clsD), RE.one ' ',
        plus (RE.cls false [.rng 'A' 'Z', .rng '0' '9'])]

def cleanRefsFl : RFlags := {}

/-- Modelled from the spec: `REFERENCE_ID_PATTERN` lives in
`cablemap.core.constants`, which is not under src/.  Per the spec's data
model an identifier is "two-digit year, location code, sequence number,
optional section suffix"; `pattern.match` in Python is anchored at the start
only, so the shape below checks that prefix. -/
def referenceIdRE : RE :=
  rcat [RE.cls false clsD, RE.cls false clsD, plus (RE.cls false clsAZ),
        plus (RE.cls false clsD)]

/-- `REFERENCE_ID_PATTERN.match(reference)` viewed as a Boolean. -/
def refIdMatches (s : Str) : Bool := (reMatch {} referenceIdRE s 0).isSome

/-- The Python `a or b` idiom on ints. -/
def pyOrN (a b : Nat) : Nat := if a ≠ 0 then a else b

def refEndLoopAux (content : Str) (maxIdx : Nat) : Nat → Nat → Nat
  | 0, lastEnd => lastEnd
  | Nat.succ fu, lastEnd =>
    match reSearchIn refLastFl refLastRE content lastEnd maxIdx with
    | none => lastEnd
    | some m => refEndLoopAux content maxIdx fu m.2.1

/-- The `while m_end: last_end = m_end.end(); m_end = ...` loop of
`parse_references` (lines 654-656); each iteration strictly advances, so the
fuel `content.length + 2` is never exhausted. -/
def refEndLoop (content : Str) (maxIdx lastEnd : Nat) : Nat :=
  refEndLoopAux content maxIdx (content.length + 2) lastEnd

/-- Steps 1-4 of `parse_references` (lines 642-665): locate the reference
block and return the `(year, origin, serial)` candidate triples found in it,
in order of appearance. -/
def refTriples (content : Str) (year : Nat) : List (Str × Str × Str) :=
  let mStop := reSearch refStopFl refStopRE content 0
  let maxIdx := pyAndOrN (mStop.map (fun m => m.1)) _MAX_HEADER_IDX
  let mStart := reSearchIn refStartFl refStartRE content 0 maxIdx
  let afterStart := pyAndOrN (mStart.map (fun m => m.2.1)) 0
  let mStop2 := reSearchIn refNotRefFl refNotRefRE content afterStart maxIdx
  let maxIdx2 := min (pyAndOrN (mStop2.map (fun m => m.1)) _MAX_HEADER_IDX) maxIdx
  let lastEnd := refEndLoop content maxIdx2 afterStart
  match mStart with
  | some m =>
    if lastEnd ≠ 0 then
      let start := grpStart m 1
      let endp := pyOrN lastEnd m.2.1
      let refs := reSub cleanRefsFl cleanRefsRE []
        (pyReplace (pyslice content start endp) (tl "\n") (tl " "))
      (reFindAll refFl refRE refs).map
        (fun mm => (grpD refs mm 1, grpD refs mm 2, grpD refs mm 3))
    else []
  | none => []

/-- `format_year` (lines 635-641), with `year` the int argument of
`parse_references`. -/
def formatYear (year : Nat) (y : Str) : Str :=
  let y := if !pyTruthy y then natToStr year else y
  if 2 < y.length then y.drop 2 else y

/-- The reference string assembled from one triple (lines 666-674):
`u'%s%s%d' % (format_year(y), normalized origin, int(sn))`. -/
def mkReference (year : Nat) (t : Str × Str × Str) : Str :=
  let y := formatYear year t.1
  let origin := pyUpper (pyReplace t.2.1 (tl " ") [])
  let origin :=
    if origin = tl "RIO" ∨ origin = tl "RIODEJAN" then tl "RIODEJANEIRO"
    else if origin = tl "SECSTATE" ∨ origin = tl "SECDEF" then tl "STATE"
    else if origin = tl "UNVIE" ∨ origin = tl "EMBASSYVIENNA" then tl "UNVIENNA"
    else origin
  y ++ origin ++ natToStr (natFromDigits t.2.2)

/-- The normalized reference candidates of a document, in appearance order. -/
def refCandidates (content : Str) (year : Nat) : List Str :=
  (refTriples content year).map (mkReference year)

/-- Python `reference != reference_id` where `reference_id` may be `None`
(comparing a string with `None` is `True`). -/
def pyNeOpt (r : Str) (o : Option Str) : Bool :=
  match o with
  | none => true
  | some s => decide (r ≠ s)

/-- One iteration of the `parse_references` result loop (lines 665-678):
skip the candidate unless it matches the identifier shape, append it unless
it equals the document's own identifier. -/
def refStep (year : Nat) (reference_id : Option Str) (res : List Str)
    (t : Str × Str × Str) : List Str :=
  let reference := mkReference year t
  if !refIdMatches reference then res
  else if pyNeOpt reference reference_id then res ++ [reference]
  else res

/-- The predicate under which `refStep` keeps a candidate. -/
def refKeep (reference_id : Option Str) (r : Str) : Bool :=
  refIdMatches r && pyNeOpt r reference_id

/-- `parse_references` (lines 624-679).  A candidate is kept when it matches
the identifier shape and differs from the document's own `reference_id`
(which is `None`-able in the Python signature). -/
def parse_references (content : Str) (year : Nat) (reference_id : Option Str) :
    List Str :=
  (refTriples content year).foldl (refStep year reference_id) []

/-! ## Tags extractor (reader.py lines 682-742) -/

/-- Line 682: `_TAGS_PATTERN = re.compile(r'(?:TAGS|TAG|AGS:)(?::\s*|\s+)(.+)',
re.IGNORECASE|re.UNICODE)`. -/
def tagsRE : RE :=
  rcat [ralt [rstr "TAGS", rstr "TAG", rstr "AGS:"],
        ralt [rcat [RE.one ':', swsp], pwsp],
        RE.grp 1 (plus RE.dot)]

def tagsFl : RFlags := { ic := true }

/-- Line 683: `_TAGS_SUBJECT_PATTERN = re.compile(r'(SUBJECT:)', re.IGNORECASE|re.UNICODE)`. -/
def tagsSubjRE : RE := RE.grp 1 (rstr "SUBJECT:")

def tagsSubjFl : RFlags := { ic := true }

/-- Line 684: `_TAGS_CONT_PATTERN = re.compile(r'(?:\n)([a-zA-Z_-]+.+)',
re.MULTILINE|re.UNICODE)`. -/
def tagsContRE : RE := rcat [RE.one '\n', RE.grp 1 (rcat [plus wordCls, plus RE.dot])]

def tagsContFl : RFlags := { ml := true }

/-- Line 685: `_TAGS_CONT_NEXT_LINE_PATTERN = re.compile(r'\n[ ]*[A-Za-z_-]+[ ]*,',
re.UNICODE)`. -/
def tagsContNextRE : RE :=
  rcat [RE.one '\n', star (RE.one ' '), plus wordCls, star (RE.one ' '), RE.one ',']

def tagsContNextFl : RFlags := {}

/-- Line 686: `_TAG_PATTERN` (re.UNICODE|re.MULTILINE), eleven groups: eight
special-cased two-word names, the generic word token, the parenthetical
group, and the comma-joined two-word pair. -/
def tagRE : RE :=
  ralt [
    RE.grp 1 (rcat [rstr "ZOELLICK", plus (RE.one ' '), rstr "ROBERT"]),
    RE.grp 2 (rcat [rstr "GAZA", plus (RE.one ' '), rstr "DISENGAGEMENT"]),
    RE.grp 3 (rcat [rstr "ISRAELI", plus (RE.one ' '), rstr "PALESTINIAN",
                    plus (RE.one ' '), rstr "AFFAIRS"]),
    RE.grp 4 (rcat [rstr "COUNTER", plus (RE.one ' '), rstr "TERRORISM"]),
    RE.grp 5 (rcat [rstr "CLINTON", plus (RE.one ' '), rstr "HILLARY"]),
    RE.grp 6 (rcat [rstr "STEINBERG", plus (RE.one ' '), rstr "JAMES"]),
    RE.grp 7 (rcat [rstr "BIDEN", plus (RE.one ' '), rstr "JOSEPH"]),
    RE.grp 8 (rcat [rstr "RICE", plus (RE.one ' '), rstr "CONDOLEEZZA"]),
    RE.grp 9 (plus wordCls),
    RE.grp 10 (rcat [RE.one '(', plus (RE.cls true [.one ')']), RE.one ')']),
    rcat [RE.one ',', plus (RE.one ' '),
          RE.grp 11 (rcat [plus wordCls, RE.one ' ', plus wordCls])]]

def tagFl : RFlags := { ml := true }

/-- Lines 689-700: `_TAG_FIXES`, the tag canonicalization map. -/
def tagFixes : List (Str × Str) :=
  [ (tl "CLINTON HILLARY", tl "CLINTON, HILLARY"),
    (tl "STEINBERG JAMES", tl "STEINBERG, JAMES B."),
    (tl "BIDEN JOSEPH", tl "BIDEN, JOSEPH"),
    (tl "ZOELLICK ROBERT", tl "ZOELLICK, ROBERT"),
    (tl "RICE CONDOLEEZZA", tl "RICE, CONDOLEEZZA"),
    (tl "COUNTER TERRORISM", tl "COUNTERTERRORISM"),
    (tl "MOPPS", tl "MOPS"),
    (tl "POGOV", tl "PGOV"),
    (tl "RU", tl "RS"),
    (tl "SYR", tl "SY") ]

/-- `u''.join(t).upper().replace(u')', u'').replace(u'(', u'')` applied to the
eleven-group tuple of one `_TAG_PATTERN` match (line 732). -/
def tagJoin (tags : Str) (mm : MRes) : Str :=
  pyReplace
    (pyReplace
      (pyUpper ((List.range 11).foldl (fun a i => a ++ grpD tags mm (i + 1)) []))
      (tl ")") [])
    (tl "(") []

/-- Lines 713-731 of `parse_tags`: the normalized token sequence scanned from
the candidate tag text, `none` when the TAGS anchor is absent. -/
def tagTokensOpt (content : Str) : Option (List Str) :=
  match reSearch tagsFl tagsRE content 0 with
  | none => none
  | some m =>
    let tags := grpD content m 1
    let minIdx := m.2.1
    let maxIdx := _MAX_HEADER_IDX
    let p :=
      match reSearch tagsSubjFl tagsSubjRE tags 0 with
      | some ms => (pyslice tags 0 ms.1, min maxIdx ms.1)
      | none => (tags, maxIdx)
    let tags := p.1
    let m2 :=
      if endsL tags (tl ",") || endsL tags (tl ", ")
          || (reMatchIn tagsContNextFl tagsContNextRE content minIdx p.2).isSome then
        reMatch tagsContFl tagsContRE content minIdx
      else none
    let tags :=
      match m2 with
      | some mm => tags ++ ' ' :: grpD content mm 1
      | none => tags
    some ((reFindAll tagFl tagRE tags).map (tagJoin tags))

/-- The normalized token sequence (empty when the TAGS anchor is absent). -/
def tagTokens (content : Str) : List Str := (tagTokensOpt content).getD []

/-- One iteration of the `parse_tags` result loop (lines 731-741): the two
special multi-tag tokens are expanded with `res.extend(...)` (no duplicate
check), every other token is canonicalized through `_TAG_FIXES` and appended
only when not already present. -/
def tagStep (res : List Str) (tag : Str) : List Str :=
  if tag = tl "PTER MARR" then res ++ pySplitWs tag
  else if tag = tl "PHUMBA" then res ++ [tl "PHUM", tl "BA"]
  else
    let tag := ((tagFixes.lookup tag).getD tag)
    if tag ∈ res then res else res ++ [tag]

/-- `parse_tags` (lines 702-742). -/
def parse_tags (content : Str) (reference_id : Option Str) : List Str :=
  match tagTokensOpt content with
  | none => []
  | some toks => toks.foldl tagStep []

/-! # Theorems settling the claims -/

theorem pyAndOrN_some_zero (e : Nat) : pyAndOrN (some e) 0 = e := by
  by_cases h : e = 0 <;> simp [pyAndOrN, h]

/-- Fold/filter characterization of the `parse_references` result loop. -/
theorem refFold_filter (year : Nat) (rid : Option Str) (ts : List (Str × Str × Str))
    (acc : List Str) :
    ts.foldl (refStep year rid) acc
      = acc ++ (ts.map (mkReference year)).filter (refKeep rid) := by
  induction ts generalizing acc with
  | nil => simp
  | cons t ts ih =>
    simp only [List.foldl_cons, List.map_cons, List.filter_cons, refStep, refKeep]
    by_cases h1 : refIdMatches (mkReference year t) <;>
      by_cases h2 : pyNeOpt (mkReference year t) rid <;>
        simp [h1, h2, ih]

/-- **C1** (corrected).  `parse_references` never returns the document's own
identifier, and the result is exactly the in-order candidate list filtered by
the identifier-shape test and the self-reference test — hence elements appear
in order of appearance.  The claim's "never contains two equal elements" is
refuted by `parse_references_duplicates_cex`: the loop has no duplicate
check. -/
theorem parse_references_no_self (c : Str) (y : Nat) (i : Str) :
    i ∉ parse_references c y (some i) ∧
    parse_references c y (some i)
      = (refCandidates c y).filter (refKeep (some i)) := by
  have h := refFold_filter y (some i) (refTriples c y) []
  rw [List.nil_append] at h
  refine ⟨?_, by rw [parse_references, h, refCandidates]⟩
  intro hm
  rw [parse_references, h] at hm
  have := List.of_mem_filter hm
  simp [refKeep, pyNeOpt] at this

/-- **C1** counterexample: a document whose reference block lists `OSLO 123`
twice.  The claim states the result never contains two equal elements, but
`parse_references` performs no deduplication and returns `09OSLO123` twice. -/
theorem parse_references_duplicates_cex :
    parse_references (tl "REF: A) OSLO 123 B) OSLO 123\nClassified by: Amb") 2009
        (some (tl "09OSLO999"))
      = [tl "09OSLO123", tl "09OSLO123"] ∧
    ¬ (parse_references (tl "REF: A) OSLO 123 B) OSLO 123\nClassified by: Amb") 2009
        (some (tl "09OSLO999"))).Nodup := by
  exact ⟨by decide, by decide⟩

/-- **C3** counterexample: for `09STATE30049` the fix replaces
`"...2009 \n\n"` by `"...2009 \n"`; on content ending in three newlines the
first substitution leaves `"...2009 \n\n"`, which the pattern matches again,
so a second application changes the text further. -/
theorem fix_content_not_idempotent_cex :
    fix_content (fix_content (tl "Secretary Clinton’s March 24, 2009 \n\n\n")
        (tl "09STATE30049")) (tl "09STATE30049")
      ≠ fix_content (tl "Secretary Clinton’s March 24, 2009 \n\n\n")
          (tl "09STATE30049") := by decide

/-- **C3** (corrected): the content fixup is idempotent for every identifier
without an entry in `_CABLE_FIXES`, where it is the identity; idempotence
fails in general (see `fix_content_not_idempotent_cex`). -/
theorem fix_content_idempotent_without_entry (c rid : Str)
    (h : cableFixes.lookup rid = none) :
    fix_content (fix_content c rid) rid = fix_content c rid := by
  simp [fix_content, h]

/-- Witness for `fix_content_idempotent_without_entry` at a concrete input. -/
theorem fix_content_idempotent_without_entry_wit :
    cableFixes.lookup (tl "09OSLO999") = none ∧
    fix_content (fix_content (tl "abc") (tl "09OSLO999")) (tl "09OSLO999")
      = fix_content (tl "abc") (tl "09OSLO999") :=
  ⟨by decide, fix_content_idempotent_without_entry (tl "abc") (tl "09OSLO999") (by decide)⟩

/-- First-occurrence-wins deduplicating append: the generic (non-special)
branch of the tag loop. -/
def dedupStep (res : List Str) (t : Str) : List Str :=
  if t ∈ res then res else res ++ [t]

theorem dedupFold_nodup (f : Str → Str) (l : List Str) (acc : List Str) (h : acc.Nodup) :
    (l.foldl (fun res t => dedupStep res (f t)) acc).Nodup := by
  induction l generalizing acc with
  | nil => simpa using h
  | cons t ts ih =>
    rw [List.foldl_cons]
    unfold dedupStep
    by_cases hm : f t ∈ acc
    · rw [if_pos hm]; exact ih acc h
    · rw [if_neg hm]
      refine ih _ ?_
      rw [List.nodup_append]
      refine ⟨h, List.nodup_singleton _, ?_⟩
      intro a ha hb
      rw [List.mem_singleton] at hb
      subst hb
      exact hm ha

theorem tagFold_eq (ts : List Str) (acc : List Str)
    (h : ∀ t ∈ ts, t ≠ tl "PTER MARR" ∧ t ≠ tl "PHUMBA") :
    ts.foldl tagStep acc
      = ts.foldl (fun res t => dedupStep res ((tagFixes.lookup t).getD t)) acc := by
  induction ts generalizing acc with
  | nil => rfl
  | cons t ts ih =>
    have ht := h t (by simp)
    rw [List.foldl_cons, List.foldl_cons]
    have hstep : tagStep acc t = dedupStep acc ((tagFixes.lookup t).getD t) := by
      unfold tagStep dedupStep
      rw [if_neg ht.1, if_neg ht.2]
    rw [hstep]
    exact ih _ (fun u hu => h u (by simp [hu]))

/-- **C4** (corrected): when no scanned token is one of the two special
multi-token expansions (`PTER MARR`, `PHUMBA`), `parse_tags` has no duplicate
tokens and equals the first-occurrence-wins deduplication of the
canonicalized token sequence (so elements appear in first-occurrence order).
The unconditional claim is refuted by `parse_tags_duplicates_cex`: the
special expansions are appended without a duplicate check. -/
theorem parse_tags_nodup (c : Str) (rid : Option Str)
    (h : ∀ t ∈ tagTokens c, t ≠ tl "PTER MARR" ∧ t ≠ tl "PHUMBA") :
    (parse_tags c rid).Nodup ∧
    parse_tags c rid
      = (tagTokens c).foldl (fun res t => dedupStep res ((tagFixes.lookup t).getD t)) [] := by
  have hpt : parse_tags c rid = (tagTokens c).foldl tagStep [] := by
    unfold parse_tags tagTokens
    cases tagTokensOpt c <;> simp
  rw [hpt, tagFold_eq _ _ h]
  exact ⟨dedupFold_nodup (fun t => (tagFixes.lookup t).getD t) _ _ (by simp), rfl⟩

/-- Witness for `parse_tags_nodup` at a concrete input. -/
theorem parse_tags_nodup_wit :
    (∀ t ∈ tagTokens (tl "TAGS: PGOV, PM"), t ≠ tl "PTER MARR" ∧ t ≠ tl "PHUMBA") ∧
    (parse_tags (tl "TAGS: PGOV, PM") none).Nodup :=
  ⟨by decide, (parse_tags_nodup (tl "TAGS: PGOV, PM") none (by decide)).1⟩

/-- **C4** counterexample: the tag text `PTER, PTER MARR` tokenizes to
`PTER` and the special token `PTER MARR`, whose expansion re-appends `PTER`
without a duplicate check. -/
theorem parse_tags_duplicates_cex :
    parse_tags (tl "TAGS: PTER, PTER MARR") none
      = [tl "PTER", tl "PTER", tl "MARR"] ∧
    ¬ (parse_tags (tl "TAGS: PTER, PTER MARR") none).Nodup := by
  exact ⟨by decide, by decide⟩

/-- Any pair produced by one `recStep` iteration is either inherited from the
accumulator or satisfies the emission guard `route or recipient`. -/
theorem recStep_mem (tbl : Str → Option Str) (header rid : Str)
    (acc : List (Option Str × Option Str)) (m : MRes) (p : Option Str × Option Str)
    (hp : p ∈ recStep tbl header rid acc m) :
    p ∈ acc ∨ (optTruthy p.1 || optTruthy p.2) = true := by
  unfold recStep at hp
  by_cases hg : (optTruthy (recPair tbl header rid m).1
      || optTruthy (recPair tbl header rid m).2) = true
  · rw [if_pos hg] at hp
    rcases List.mem_append.mp hp with h | h
    · exact Or.inl h
    · rw [List.mem_singleton] at h
      subst h
      exact Or.inr hg
  · rw [if_neg (by simpa using hg)] at hp
    exact Or.inl hp

theorem recFold_guard (tbl : Str → Option Str) (header rid : Str)
    (ms : List MRes) (acc : List (Option Str × Option Str))
    (h : ∀ p ∈ acc, (optTruthy p.1 || optTruthy p.2) = true) :
    ∀ p ∈ ms.foldl (recStep tbl header rid) acc,
      (optTruthy p.1 || optTruthy p.2) = true := by
  induction ms generalizing acc with
  | nil => simpa using h
  | cons m ms ih =>
    rw [List.foldl_cons]
    exact ih _ (fun p hp => (recStep_mem tbl header rid acc m p hp).elim (h p) id)

/-- **C5** (corrected): every pair emitted by the recipient sub-algorithm has
a truthy route or a truthy recipient — an entry empty on both sides is
dropped, and an empty route with a nonempty name is kept.  The claim's
stronger statement that no pair with an empty name is ever emitted is refuted
by `route_recipient_empty_name_cex`: when a route prefix is present, the pair
is kept even with an empty (or `None`) name. -/
theorem route_recipient_guard (tbl : Str → Option Str) (header rid : Str) :
    ∀ p ∈ route_recipient_from_header tbl header rid,
      (optTruthy p.1 || optTruthy p.2) = true := by
  unfold route_recipient_from_header
  exact recFold_guard tbl header rid _ [] (by simp)

/-- Witness for `route_recipient_guard` at a concrete input. -/
theorem route_recipient_guard_wit :
    ((none : Option Str), some (tl "ABCD")) ∈
        route_recipient_from_header (fun _ => none) (tl "ABCD") (tl "X") ∧
    (optTruthy (none : Option Str) || optTruthy (some (tl "ABCD"))) = true :=
  ⟨by decide,
   route_recipient_guard (fun _ => none) (tl "ABCD") (tl "X")
     ((none : Option Str), some (tl "ABCD")) (by decide)⟩

/-- **C5** counterexample: the header line `RUEHC/PRIORITY` carries a route
prefix and a name that becomes empty after precedence-keyword stripping; the
claim says such an entry is dropped entirely, but the code emits the pair
`(RUEHC, '')`. -/
theorem route_recipient_empty_name_cex :
    route_recipient_from_header (fun _ => none) (tl "RUEHC/PRIORITY") (tl "X")
      = [(some (tl "RUEHC"), some [])] := by decide

theorem hbIdxOf_cases (o1 o2 o3 : Option Nat) :
    hbIdxOf o1 o2 o3
      = (match (o2.bind fun s => if s = 0 then none else some s),
               (o3.bind fun p => if p = 0 then none else some p) with
         | some s, some p => max (o1.getD 0) (min s p)
         | some s, none => max (o1.getD 0) s
         | none, some p => max (o1.getD 0) p
         | none, none => o1.getD 0) := by
  cases o1 <;> cases o2 <;> cases o3 <;>
    simp only [hbIdxOf, pyAndOrN, pyAndOrNone, natOptTruthy, Option.bind, Option.getD]
  all_goals
    first
    | rfl
    | (rename_i x1 x2 x3
       by_cases h1 : x1 = 0 <;> by_cases h2 : x2 = 0 <;> by_cases h3 : x3 = 0 <;>
         simp [h1, h2, h3, Nat.max_def, Nat.min_def] <;> split_ifs <;> omega)
    | (rename_i x1 x2
       by_cases h1 : x1 = 0 <;> by_cases h2 : x2 = 0 <;>
         simp [h1, h2, Nat.max_def, Nat.min_def] <;> split_ifs <;> omega)
    | (rename_i x1
       by_cases h1 : x1 = 0 <;>
         simp [h1, Nat.max_def, Nat.min_def] <;> split_ifs <;> omega)

/-- **C2** (corrected): the cut rule of `header_body_from_content`.  `idx0`
is the end offset of the classified-by anchor (0 if absent); the summary and
first-paragraph anchors count as present only when their match offset is
nonzero — the one deviation from the claim, which counts an anchor matching
at offset 0 as present (Python's `m and m.start() or None`; see
`header_body_zero_offset_cex`).  If both are present the cut index is
`max idx0 (min s p)`; if exactly one is present it is `max idx0` that
offset; otherwise it is `idx0`.  The content is split at the cut index when
positive, else the result is the typed not-found value. -/
theorem header_body_cut_rule (c : Str) (idx0 : Nat) (s? p? : Option Nat)
    (h0 : idx0 = ((reSearch classifiedByFl classifiedByRE c 0).map (fun m => m.2.1)).getD 0)
    (hs : s? = ((reSearch summaryFl751 summaryRE751 c 0).map (fun m => m.1)).bind
                 (fun s => if s = 0 then none else some s))
    (hp : p? = ((reSearch firstParagraphFl firstParagraphRE c 0).map (fun m => m.1)).bind
                 (fun p => if p = 0 then none else some p)) :
    headerBodyIdx c = (match s?, p? with
                       | some s, some p => max idx0 (min s p)
                       | some s, none => max idx0 s
                       | none, some p => max idx0 p
                       | none, none => idx0) ∧
    header_body_from_content c =
      (if 0 < headerBodyIdx c then
        some (c.take (headerBodyIdx c), c.drop (headerBodyIdx c))
       else none) := by
  subst h0 hs hp
  exact ⟨hbIdxOf_cases _ _ _, rfl⟩

/-- Witness for `header_body_cut_rule` at a concrete input: only the
classified-by anchor is present, its match ends at offset 16, and the cut
index is 16. -/
theorem header_body_cut_rule_wit :
    headerBodyIdx (tl "Classified by: Q\nrest") = 16 := by
  have h := (header_body_cut_rule (tl "Classified by: Q\nrest") 16 none none
    (by decide) (by decide) (by decide)).1
  simpa using h

/-- **C2** counterexample: on `"SUMMARY: a\n\n1. b"` the summary anchor
matches at offset 0, the paragraph anchor at offset 11 and the classified-by
anchor is absent, so both anchors exist and the claim's rule gives the cut
index `max 0 (min 0 11) = 0`, i.e. the result `(None, None)`; the code
treats the offset-0 summary anchor as absent (`m and m.start() or None`) and
returns the split at index 11. -/
theorem header_body_zero_offset_cex :
    (reSearch summaryFl751 summaryRE751 (tl "SUMMARY: a\n\n1. b") 0).map (fun m => m.1)
      = some 0 ∧
    (reSearch firstParagraphFl firstParagraphRE (tl "SUMMARY: a\n\n1. b") 0).map
        (fun m => m.1) = some 11 ∧
    reSearch classifiedByFl classifiedByRE (tl "SUMMARY: a\n\n1. b") 0 = none ∧
    header_body_from_content (tl "SUMMARY: a\n\n1. b")
      = some (tl "SUMMARY: a\n", tl "\n1. b") :=
  ⟨by decide, by decide, by decide, by decide⟩

/-- **C6** (confirmed): whenever the identifier parsed from the metadata
table differs from the caller-supplied one and the malformed-identifier
exception table does not remap it to the caller's identifier, `parse_meta`
is a hard failure: it returns the mismatch error, and — the error carrying
no cable value — assigns no fields. -/
theorem parse_meta_mismatch_error (malformedIds : Str → Option Str) (fc : Str)
    (cable : Cable) (ref : Str)
    (h1 : metaParsedRef fc = some ref)
    (h2 : ref ≠ cable.reference_id)
    (h3 : malformedIds ref ≠ some cable.reference_id) :
    parse_meta malformedIds fc cable = .error (tl "cable.reference_id != ref") := by
  unfold metaParsedRef at h1
  unfold parse_meta
  cases hm : metaTableMatch fc with
  | error e => rw [hm] at h1; exact absurd h1 (by simp)
  | ok trip =>
    obtain ⟨m, si, ei⟩ := trip
    rw [hm] at h1
    simp only [Option.some.injEq] at h1
    simp only [hm]
    rw [h1, if_pos (Ne.symm h2), if_pos h3]

/-- The synthetic metadata document of the `parse_meta_mismatch_error`
witness: a well-formed five-cell cable table whose identifier is
`09OSLO11`. -/
def metaWitnessDoc : Str :=
  tl "<table class=\x27cable\x27>x<td><a >09OSLO11</a>x<td><a >d1</a>x<td><a >d2</a>x<td><a >SECRET</a>x<td><a >OSLO</a>y</table>"

/-- Witness for `parse_meta_mismatch_error`: the table parses to `09OSLO11`,
the caller supplies `09OSLO99`, the (empty) exception table does not remap,
and the call errors. -/
theorem parse_meta_mismatch_error_wit :
    metaParsedRef metaWitnessDoc = some (tl "09OSLO11") ∧
    parse_meta (fun _ => none) metaWitnessDoc { reference_id := tl "09OSLO99" }
      = .error (tl "cable.reference_id != ref") :=
  ⟨by decide,
   parse_meta_mismatch_error (fun _ => none) metaWitnessDoc
     { reference_id := tl "09OSLO99" } (tl "09OSLO11")
     (by decide) (by decide) (by decide)⟩

/-- When the subject anchor search succeeds, `parse_subject` never consults
the `_CABLE_SUBJECT_FIXES` table. -/
theorem parse_subject_fixes_irrelevant (f g : Str → Option Str) (c : Str)
    (rid : Option Str) (cl fx : Bool) (h : (subjectSearch c).isSome) :
    parse_subject f c rid cl fx = parse_subject g c rid cl fx := by
  unfold parse_subject
  cases hs : subjectSearch c with
  | none => rw [hs] at h; simp at h
  | some m => rfl

/-- The synthetic round-trip document of the spec: a normalized document
with a SUBJECT line, a REF line and a classified-by line. -/
def roundtripDoc : Str :=
  tl "X\nSUBJECT: TEST CABLE ALPHA\nREF: A) OSLO 123\nClassified by: Amb"

/-- **C7** (confirmed): on the round-trip document, `parse_subject` (for
every subject-fixes table) returns exactly `TEST CABLE ALPHA`, and
`parse_references` with year 2009 and identifier `09OSLO999` returns a list
containing `09OSLO123`. -/
theorem roundtrip_subject_references :
    (∀ fixes : Str → Option Str,
      parse_subject fixes roundtripDoc none true true = tl "TEST CABLE ALPHA") ∧
    tl "09OSLO123" ∈ parse_references roundtripDoc 2009 (some (tl "09OSLO999")) := by
  constructor
  · intro fixes
    rw [parse_subject_fixes_irrelevant fixes (fun _ => none) roundtripDoc none true true
      (by decide)]
    decide
  · decide

/-- **C8** (confirmed): `parse_nondisclosure_deadline` returns `None`
whenever the deadline pattern does not match, and on
`"E.O. 12958: DECL: 03/04/19"` it returns `"2019-03-04"` — the `MM/DD/YY`
date emitted as `YYYY-MM-DD` with the two-digit year expanded to `20YY`. -/
theorem deadline_extractor :
    (∀ c : Str, reSearch deadlineFl deadlineRE c 0 = none →
      parse_nondisclosure_deadline c = none) ∧
    parse_nondisclosure_deadline (tl "E.O. 12958: DECL: 03/04/19")
      = some (tl "2019-03-04") := by
  refine ⟨fun c h => ?_, by decide⟩
  unfold parse_nondisclosure_deadline
  rw [h]

/-- Witness for `deadline_extractor` on content with no deadline pattern. -/
theorem deadline_extractor_wit :
    reSearch deadlineFl deadlineRE (tl "no deadline here") 0 = none ∧
    parse_nondisclosure_deadline (tl "no deadline here") = none :=
  ⟨by decide, deadline_extractor.1 (tl "no deadline here") (by decide)⟩

/-- **C9** (confirmed): the begin-summary anchor used by
`header_body_from_content` is the later, line-751 `_SUMMARY_PATTERN`
definition (which requires a terminator lookahead), shadowing the line-243
definition `(BEGIN SUMMARY )|(SUMMARY: )`.  On a document with a
`BEGIN SUMMARY ` line and no terminator anywhere after it, the line-243
pattern matches (at offset 17) while the line-751 pattern does not, so the
function behaves as if no summary anchor exists and cuts at the classified-by
offset 16 — whereas the line-243 variant would cut at 17. -/
theorem summary_pattern_shadowing :
    (reSearch summaryFl243 summaryRE243
        (tl "Classified by: X\nBEGIN SUMMARY blah") 0).map (fun m => m.1) = some 17 ∧
    reSearch summaryFl751 summaryRE751 (tl "Classified by: X\nBEGIN SUMMARY blah") 0
      = none ∧
    header_body_from_content (tl "Classified by: X\nBEGIN SUMMARY blah")
      = some (tl "Classified by: X", tl "\nBEGIN SUMMARY blah") ∧
    header_body_line243_variant (tl "Classified by: X\nBEGIN SUMMARY blah")
      = some (tl "Classified by: X\n", tl "BEGIN SUMMARY blah") :=
  ⟨by decide, by decide, by decide, by decide⟩

/-- **C10** (confirmed): whenever `header_body_from_content` does not return
the typed not-found value, the header concatenated with the body is the
original content and the header is a prefix of the content. -/
theorem header_body_partition (c h b : Str)
    (hs : header_body_from_content c = some (h, b)) :
    h ++ b = c ∧ h <+: c := by
  unfold header_body_from_content at hs
  by_cases h0 : 0 < headerBodyIdx c
  · rw [if_pos h0, Option.some.injEq, Prod.mk.injEq] at hs
    obtain ⟨hh, hb⟩ := hs
    subst hh hb
    exact ⟨List.take_append_drop _ c, ⟨c.drop (headerBodyIdx c),
      List.take_append_drop _ c⟩⟩
  · rw [if_neg h0] at hs
    exact absurd hs (by simp)

/-- Witness for `header_body_partition` at a concrete input. -/
theorem header_body_partition_wit :
    tl "Classified by: Y" ++ tl "\n1. ok" = tl "Classified by: Y\n1. ok" ∧
    tl "Classified by: Y" <+: tl "Classified by: Y\n1. ok" :=
  header_body_partition (tl "Classified by: Y\n1. ok") (tl "Classified by: Y")
    (tl "\n1. ok") (by decide)

end Cablemap

